import Mathlib

/-!
Shallow embedding of `xplat/Sonar/SonarWebSocketImpl.cpp` (the connection
lifecycle and trust-bootstrap state machine of the Sonar/Flipper device-side
client), together with theorems settling the specification claims.

The controller's mutable fields (`isOpen_`, `connectionIsTrusted_`,
`failedConnectionAttempts_`, `client_`) become a state record `WS`; each
method becomes an explicit state transformer.  External collaborators are
parameters: connect outcomes of `rsocket::RSocket::createConnectedClient`
are a `ConnectResult` input, `ConnectionContextStore::hasRequiredFiles` a
boolean input, and `folly::parseJson` (which throws on malformed input) a
function `String → Option Dyn`.
-/

namespace Sonar

/-- A live rsocket channel handle (`client_` when non-null); identified by a
tag so that distinct connections are distinguishable. -/
structure Channel where
  id : Nat
deriving DecidableEq, Repr

/-- Minimal stand-in for `folly::dynamic` JSON values: enough shape to carry
strings and single-field objects verbatim through the controller, which never
inspects their structure. -/
inductive Dyn where
  | str : String → Dyn
  | field : String → Dyn → Dyn
  | objEmpty : Dyn
deriving DecidableEq, Repr

/-- The mutable state of `SonarWebSocketImpl`: the fields `isOpen_`,
`connectionIsTrusted_`, `failedConnectionAttempts_` and the channel handle
`client_` (`none` models the null `std::unique_ptr`). -/
structure WS where
  isOpen_ : Bool
  connectionIsTrusted_ : Bool
  failedConnectionAttempts_ : Nat
  client_ : Option Channel
deriving DecidableEq, Repr

/-- Notifications delivered to the consumer-supplied `Callbacks` object. -/
inductive CallbackEvent where
  | onConnected : CallbackEvent
  | onDisconnected : CallbackEvent
  | onMessageReceived : Dyn → CallbackEvent
deriving DecidableEq, Repr

/-- Outcome of a `rsocket::RSocket::createConnectedClient(...).get()` call:
success installs a channel; failures are the exceptions `startSync` catches,
split the way its catch blocks split them
(`folly::AsyncSocketException` with type `NOT_OPEN`, any other
`folly::AsyncSocketException`, any other `std::exception`). -/
inductive ConnectResult where
  | success : Channel → ConnectResult
  | asyncSocketNotOpen : ConnectResult
  | asyncSocketOther : ConnectResult
  | otherException : ConnectResult
deriving DecidableEq, Repr

/-- Which connection path a `startSync` invocation took. -/
inductive Path where
  | notRun : Path
  | bootstrap : Path
  | secure : Path
deriving DecidableEq, Repr

/-- Environment of one `startSync` invocation: the thread check, the trust
store's `hasRequiredFiles()` answer, and the outcome of the connect attempt
the chosen path performs. -/
structure Env where
  isRunningInOwnThread : Bool
  hasRequiredFiles : Bool
  connectResult : ConnectResult
deriving DecidableEq, Repr

/-- `SonarWebSocketImpl::isOpen`: `return isOpen_ && connectionIsTrusted_;`. -/
def WS.isOpen (s : WS) : Bool :=
  s.isOpen_ && s.connectionIsTrusted_

/-- `ConnectionEvents::onConnected`: sets `isOpen_ = true` and notifies
`callbacks_->onConnected()` only when `connectionIsTrusted_` holds.
Returns the new state and the callback events fired. -/
def ConnectionEvents.onConnected (s : WS) : WS × List CallbackEvent :=
  let s1 : WS := { s with isOpen_ := true }
  if s.connectionIsTrusted_ then (s1, [CallbackEvent.onConnected]) else (s1, [])

/-- `ConnectionEvents::onDisconnected`: returns early when `!isOpen_`;
otherwise clears `isOpen_`, and when the connection was trusted clears
`connectionIsTrusted_` and notifies `callbacks_->onDisconnected()`; a
reconnect is then scheduled (third component: whether `reconnect()` ran). -/
def ConnectionEvents.onDisconnected (s : WS) : WS × List CallbackEvent × Bool :=
  if !s.isOpen_ then (s, [], false)
  else
    let s1 : WS := { s with isOpen_ := false }
    if s.connectionIsTrusted_ then
      ({ s1 with connectionIsTrusted_ := false }, [CallbackEvent.onDisconnected], true)
    else
      (s1, [], true)

/-- `ConnectionEvents::onClosed` forwards to `onDisconnected`. -/
def ConnectionEvents.onClosed (s : WS) : WS × List CallbackEvent × Bool :=
  ConnectionEvents.onDisconnected s

/-- `SonarWebSocketImpl::isCertificateExchangeNeeded`: true when
`failedConnectionAttempts_ >= 2`, otherwise the negation of
`contextStore_->hasRequiredFiles()`. -/
def isCertificateExchangeNeeded (s : WS) (hasRequiredFiles : Bool) : Bool :=
  if s.failedConnectionAttempts_ ≥ 2 then true else !hasRequiredFiles

/-- `SonarWebSocketImpl::startSync` together with the connect performed by the
path it chooses (`doCertificateExchange` or `connectSecurely`) and the catch
blocks.  Both paths first write the trust flag (false for bootstrap, true for
secure) and then attempt the connect, so a thrown connect leaves that write in
place.  On bootstrap success, `requestSignedCertFromSonar` is initiated, whose
synchronous tail sets `failedConnectionAttempts_ = 0`; on secure success
`connectSecurely` sets `failedConnectionAttempts_ = 0` and installs the
channel.  The catch blocks increment `failedConnectionAttempts_` except for
`AsyncSocketException::NOT_OPEN`, and call `reconnect()` in all catch cases.
Result: new state, path taken, whether `reconnect()` was called. -/
def startSync (s : WS) (env : Env) : WS × Path × Bool :=
  if !env.isRunningInOwnThread then (s, Path.notRun, false)
  else if s.isOpen then (s, Path.notRun, false)
  else if isCertificateExchangeNeeded s env.hasRequiredFiles then
    let s1 : WS := { s with connectionIsTrusted_ := false }
    match env.connectResult with
    | ConnectResult.success ch =>
        ({ s1 with client_ := some ch, failedConnectionAttempts_ := 0 },
         Path.bootstrap, false)
    | ConnectResult.asyncSocketNotOpen => (s1, Path.bootstrap, true)
    | ConnectResult.asyncSocketOther =>
        ({ s1 with failedConnectionAttempts_ := s1.failedConnectionAttempts_ + 1 },
         Path.bootstrap, true)
    | ConnectResult.otherException =>
        ({ s1 with failedConnectionAttempts_ := s1.failedConnectionAttempts_ + 1 },
         Path.bootstrap, true)
  else
    let s1 : WS := { s with connectionIsTrusted_ := true }
    match env.connectResult with
    | ConnectResult.success ch =>
        ({ s1 with client_ := some ch, failedConnectionAttempts_ := 0 },
         Path.secure, false)
    | ConnectResult.asyncSocketNotOpen => (s1, Path.secure, true)
    | ConnectResult.asyncSocketOther =>
        ({ s1 with failedConnectionAttempts_ := s1.failedConnectionAttempts_ + 1 },
         Path.secure, true)
    | ConnectResult.otherException =>
        ({ s1 with failedConnectionAttempts_ := s1.failedConnectionAttempts_ + 1 },
         Path.secure, true)

/-- `SonarWebSocketImpl::stop`: calls `client_->disconnect()` when a handle is
present (second component: whether a disconnect was issued, which will raise
the transport's closed event) and then sets `client_ = nullptr`. -/
def stop (s : WS) : WS × Bool :=
  match s.client_ with
  | some _ => ({ s with client_ := none }, true)
  | none => ({ s with client_ := none }, false)

/-- The continuation `SonarWebSocketImpl::sendMessage` enqueues on
`sonarEventBase_`: when it runs, it forwards the message over `client_` when a
handle is installed at that moment and otherwise does nothing.  Returns the
delivery performed, if any. -/
def sendMessageCont (clientAtRun : Option Channel) (message : Dyn) :
    Option (Channel × Dyn) :=
  match clientAtRun with
  | some ch => some (ch, message)
  | none => none

/-- `SonarWebSocketImpl::sendMessage` itself: touches no controller state and
cannot throw; it only enqueues the continuation carrying the message. -/
def sendMessage (s : WS) (message : Dyn) : WS × Dyn :=
  (s, message)

/-- Success subscriber of the `requestResponse` in
`SonarWebSocketImpl::requestSignedCertFromSonar`: on a non-empty response
body, `folly::parseJson` it (throwing — modeled as `none` — on malformed
input, in which case neither the store nor the handle reset is reached) and
pass the value to `contextStore_->storeConnectionConfig`; then set
`client_ = nullptr`.  Returns `none` when the parse throws, otherwise the new
state and the config stored (if any). -/
def certResponseSuccess (parseJson : String → Option Dyn) (s : WS)
    (response : String) : Option (WS × Option Dyn) :=
  if response = "" then some ({ s with client_ := none }, none)
  else
    match parseJson response with
    | none => none
    | some config => some ({ s with client_ := none }, some config)

/-- The error input the error subscriber distinguishes: an
`rsocket::ErrorWithPayload` carrying a payload string, or any other error. -/
inductive CertError where
  | withPayload : String → CertError
  | other : CertError
deriving DecidableEq, Repr

/-- `SonarWebSocketImpl::sendLegacyCertificateRequest`: resends `message` by
`fireAndForget`, and the subscribe callback sets `client_ = nullptr` once the
send completes.  Returns the new state and the resent message. -/
def sendLegacyCertificateRequest (s : WS) (message : Dyn) : WS × Dyn :=
  ({ s with client_ := none }, message)

/-- Error subscriber of the `requestResponse` in
`requestSignedCertFromSonar`: for an `ErrorWithPayload`, when
`errorMessage.compare("not implemented")` is nonzero (payload differs from
the literal) the error is logged; when it is zero (payload equals the
literal) `sendLegacyCertificateRequest(message)` runs.  Any other error is
logged.  Returns the new state, the message resent by the legacy fallback (if
any), and whether an error was logged. -/
def certResponseError (s : WS) (message : Dyn) (err : CertError) :
    WS × Option Dyn × Bool :=
  match err with
  | CertError.withPayload payload =>
      if payload = "not implemented" then
        let r := sendLegacyCertificateRequest s message
        (r.1, some r.2, false)
      else
        (s, none, true)
  | CertError.other => (s, none, true)

/-- `Responder::handleFireAndForget`: `folly::parseJson` the payload and hand
the value to `callbacks_->onMessageReceived`; a malformed payload makes the
parse throw (modeled as `Except.error`) before the callback is reached. -/
def Responder.handleFireAndForget (parseJson : String → Option Dyn)
    (payload : String) : Except String (List CallbackEvent) :=
  match parseJson payload with
  | some j => Except.ok [CallbackEvent.onMessageReceived j]
  | none => Except.error payload

/-- A concrete parse function used to instantiate the `parseJson` parameter
in witnesses: recognizes the empty object and a one-field string object. -/
def parseJsonDemo : String → Option Dyn := fun input =>
  if input = "\x7b\x7d" then some Dyn.objEmpty
  else if input = "\x7b\"foo\":\"bar\"\x7d" then some (Dyn.field "foo" (Dyn.str "bar"))
  else none

end Sonar

namespace Sonar

/-- Helper: the decision predicate unfolded into its arithmetic form. -/
theorem certNeeded_iff (s : WS) (b : Bool) :
    isCertificateExchangeNeeded s b = true ↔
      (2 ≤ s.failedConnectionAttempts_ ∨ b = false) := by
  by_cases h : 2 ≤ s.failedConnectionAttempts_ <;>
    cases b <;> simp [isCertificateExchangeNeeded, h]

/-- Helper: the path `startSync` takes, as a function of the guards and the
decision predicate alone (the connect outcome never changes the path). -/
theorem startSync_path (s : WS) (env : Env) :
    (startSync s env).2.1 =
      (if !env.isRunningInOwnThread then Path.notRun
       else if s.isOpen then Path.notRun
       else if isCertificateExchangeNeeded s env.hasRequiredFiles then Path.bootstrap
       else Path.secure) := by
  rcases env with ⟨own, files, cr⟩
  unfold startSync
  cases own <;> cases hso : s.isOpen <;>
    cases hn : isCertificateExchangeNeeded s files <;>
    cases cr <;> simp [hso, hn]

/-- Claim C1: for every connection attempt started via `startSync` (the
thread guard passes and `isOpen()` is false), the bootstrap path is taken iff
`failedConnectionAttempts_ ≥ 2` or the trust store reports required
certificate material absent; otherwise the secure path is taken. -/
theorem startSync_bootstrap_iff (s : WS) (env : Env)
    (h1 : env.isRunningInOwnThread = true) (h2 : s.isOpen = false) :
    ((startSync s env).2.1 = Path.bootstrap ↔
       (2 ≤ s.failedConnectionAttempts_ ∨ env.hasRequiredFiles = false)) ∧
    ((startSync s env).2.1 = Path.secure ↔
       ¬(2 ≤ s.failedConnectionAttempts_ ∨ env.hasRequiredFiles = false)) := by
  rw [startSync_path, h1, h2]
  rcases Bool.eq_false_or_eq_true
      (isCertificateExchangeNeeded s env.hasRequiredFiles) with hn | hn
  · have hr := (certNeeded_iff s env.hasRequiredFiles).mp hn
    simp [hn, hr]
  · have hr := mt (certNeeded_iff s env.hasRequiredFiles).mpr (by simp [hn])
    simp [hn, hr]

/-- Witness for C1 at a concrete state: with the counter at 2 and required
files present, the bootstrap path is taken. -/
theorem startSync_bootstrap_iff_witness :
    (((startSync (WS.mk false false 2 none)
        (Env.mk true true ConnectResult.asyncSocketNotOpen)).2.1 = Path.bootstrap ↔
       (2 ≤ (WS.mk false false 2 none).failedConnectionAttempts_ ∨
        (Env.mk true true ConnectResult.asyncSocketNotOpen).hasRequiredFiles = false)) ∧
     ((startSync (WS.mk false false 2 none)
        (Env.mk true true ConnectResult.asyncSocketNotOpen)).2.1 = Path.secure ↔
       ¬(2 ≤ (WS.mk false false 2 none).failedConnectionAttempts_ ∨
         (Env.mk true true ConnectResult.asyncSocketNotOpen).hasRequiredFiles = false))) :=
  startSync_bootstrap_iff _ _ (by decide) (by decide)

end Sonar

namespace Sonar

/-- Helper: whenever `startSync` takes the bootstrap path, the resulting
state has the trust flag cleared (`doCertificateExchange` writes
`connectionIsTrusted_ = false` before connecting). -/
theorem startSync_bootstrap_trusted (s : WS) (env : Env)
    (h : (startSync s env).2.1 = Path.bootstrap) :
    (startSync s env).1.connectionIsTrusted_ = false := by
  rcases env with ⟨own, files, cr⟩
  unfold startSync at h ⊢
  cases own <;> cases hso : s.isOpen <;>
    cases hn : isCertificateExchangeNeeded s files <;>
    cases cr <;> simp_all

/-- Helper: the transport's connected event never changes the trust flag. -/
theorem onConnected_trusted (s : WS) :
    (ConnectionEvents.onConnected s).1.connectionIsTrusted_ =
      s.connectionIsTrusted_ := by
  cases h : s.connectionIsTrusted_ <;> simp [ConnectionEvents.onConnected, h]

/-- Claim C2: `isOpen()` returns true iff the channel-open flag and the trust
flag are both true; and a bootstrap connection, which clears the trust flag
before connecting, never makes `isOpen()` true — not even after the
transport's connected event fires for it. -/
theorem isOpen_trust_invariant :
    (∀ s : WS, s.isOpen = true ↔ (s.isOpen_ = true ∧ s.connectionIsTrusted_ = true)) ∧
    (∀ (s : WS) (env : Env), (startSync s env).2.1 = Path.bootstrap →
       ((startSync s env).1.connectionIsTrusted_ = false ∧
        (startSync s env).1.isOpen = false ∧
        (ConnectionEvents.onConnected (startSync s env).1).1.isOpen = false)) := by
  constructor
  · intro s; simp [WS.isOpen]
  · intro s env h
    have ht := startSync_bootstrap_trusted s env h
    exact ⟨ht, by simp [WS.isOpen, ht], by simp [WS.isOpen, onConnected_trusted, ht]⟩

/-- Witness for C2 at a concrete bootstrap run: required files absent, the
insecure connect succeeds, yet `isOpen()` stays false even after the
connected event. -/
theorem isOpen_trust_invariant_witness :
    ((startSync (WS.mk false false 0 none)
        (Env.mk true false (ConnectResult.success (Channel.mk 7)))).1.connectionIsTrusted_ = false ∧
     (startSync (WS.mk false false 0 none)
        (Env.mk true false (ConnectResult.success (Channel.mk 7)))).1.isOpen = false ∧
     (ConnectionEvents.onConnected (startSync (WS.mk false false 0 none)
        (Env.mk true false (ConnectResult.success (Channel.mk 7)))).1).1.isOpen = false) :=
  isOpen_trust_invariant.2 _ _ (by decide)

/-- Counterexample to C3 as stated: a *bootstrap* connect attempt (required
files absent, counter 0) that fails with a generic exception increments the
failure counter, contradicting "bootstrap attempts never increment it". -/
theorem bootstrap_failure_increments_counter :
    (startSync (WS.mk false false 0 none)
       (Env.mk true false ConnectResult.otherException)).2.1 = Path.bootstrap ∧
    ((startSync (WS.mk false false 0 none)
       (Env.mk true false ConnectResult.otherException)).1).failedConnectionAttempts_ = 1 := by
  decide

/-- Claim C3 as amended: on any attempt `startSync` actually runs, a connect
failure of type `NOT_OPEN` leaves the counter unchanged, any other connect
exception — on the secure or the bootstrap path alike — increments it by
exactly 1, and a successful connect resets it to 0 (secure success via
`connectSecurely`, bootstrap success via `requestSignedCertFromSonar`). -/
theorem failureCounter_semantics (s : WS) (env : Env)
    (h1 : env.isRunningInOwnThread = true) (h2 : s.isOpen = false) :
    ((env.connectResult = ConnectResult.asyncSocketNotOpen →
       (startSync s env).1.failedConnectionAttempts_ = s.failedConnectionAttempts_) ∧
     ((env.connectResult = ConnectResult.asyncSocketOther ∨
       env.connectResult = ConnectResult.otherException) →
       (startSync s env).1.failedConnectionAttempts_ = s.failedConnectionAttempts_ + 1) ∧
     (∀ ch, env.connectResult = ConnectResult.success ch →
       (startSync s env).1.failedConnectionAttempts_ = 0)) := by
  rcases env with ⟨own, files, cr⟩
  unfold startSync
  cases own <;> cases hn : isCertificateExchangeNeeded s files <;>
    cases cr <;> simp_all

/-- Witness for C3 (amended) at a concrete state: a `NOT_OPEN` failure with
the counter at 5 leaves it at 5. -/
theorem failureCounter_semantics_witness :
    (((Env.mk true true ConnectResult.asyncSocketNotOpen).connectResult =
        ConnectResult.asyncSocketNotOpen →
       (startSync (WS.mk false false 5 none)
          (Env.mk true true ConnectResult.asyncSocketNotOpen)).1.failedConnectionAttempts_ =
         (WS.mk false false 5 none).failedConnectionAttempts_) ∧
     (((Env.mk true true ConnectResult.asyncSocketNotOpen).connectResult =
         ConnectResult.asyncSocketOther ∨
       (Env.mk true true ConnectResult.asyncSocketNotOpen).connectResult =
         ConnectResult.otherException) →
       (startSync (WS.mk false false 5 none)
          (Env.mk true true ConnectResult.asyncSocketNotOpen)).1.failedConnectionAttempts_ =
         (WS.mk false false 5 none).failedConnectionAttempts_ + 1) ∧
     (∀ ch, (Env.mk true true ConnectResult.asyncSocketNotOpen).connectResult =
         ConnectResult.success ch →
       (startSync (WS.mk false false 5 none)
          (Env.mk true true ConnectResult.asyncSocketNotOpen)).1.failedConnectionAttempts_ = 0)) :=
  failureCounter_semantics _ _ (by decide) (by decide)

end Sonar

namespace Sonar

/-- Claim C4, demonstrated as a code bug at a concrete trace: from a trusted
connected state, `stop()` issues a disconnect whose closed event itself
schedules a reconnect; when that pending `startSync` continuation fires after
`stop()` (all certificate material present, the secure connect succeeding),
the controller connects securely again and the connected event makes
`isOpen()` true — the connection is resurrected after `stop()`. -/
theorem reconnect_after_stop_resurrects_connection :
    (stop (WS.mk true true 0 (some (Channel.mk 1)))).2 = true ∧
    (ConnectionEvents.onClosed (stop (WS.mk true true 0 (some (Channel.mk 1)))).1).2.2 = true ∧
    ((ConnectionEvents.onConnected
        (startSync
          (ConnectionEvents.onClosed (stop (WS.mk true true 0 (some (Channel.mk 1)))).1).1
          (Env.mk true true (ConnectResult.success (Channel.mk 2)))).1).1).isOpen = true := by
  decide

/-- Claim C5: the success subscriber of the certificate-exchange
request/response parses a non-empty response body and hands the value to
`storeConnectionConfig`, then discards the channel handle; an empty response
body skips the store but still discards the handle. -/
theorem certResponse_store_and_teardown (parseJson : String → Option Dyn)
    (s : WS) (response : String) (config : Dyn) :
    ((response ≠ "" → parseJson response = some config →
       certResponseSuccess parseJson s response =
         some ({ s with client_ := none }, some config)) ∧
     (response = "" →
       certResponseSuccess parseJson s response =
         some ({ s with client_ := none }, none))) := by
  constructor
  · intro hne hp
    simp [certResponseSuccess, hne, hp]
  · intro he
    simp [certResponseSuccess, he]

/-- Witness for C5: with the demo parse function, the body
`{"foo":"bar"}` is stored and the handle discarded, and an empty body only
discards the handle. -/
theorem certResponse_store_and_teardown_witness :
    (certResponseSuccess parseJsonDemo (WS.mk true false 0 (some (Channel.mk 3)))
        "\x7b\"foo\":\"bar\"\x7d" =
       some (WS.mk true false 0 none, some (Dyn.field "foo" (Dyn.str "bar")))) ∧
    (certResponseSuccess parseJsonDemo (WS.mk true false 0 (some (Channel.mk 3))) "" =
       some (WS.mk true false 0 none, none)) :=
  ⟨(certResponse_store_and_teardown parseJsonDemo _ _ _).1 (by decide) (by decide),
   (certResponse_store_and_teardown parseJsonDemo _ _ (Dyn.objEmpty)).2 rfl⟩

/-- Claim C6: on an error response whose payload is exactly
`"not implemented"`, the same control message is resent fire-and-forget and
the channel handle is discarded on completion; any other payload — and any
error without a payload — is only logged, with no retry and no state
change. -/
theorem certError_legacy_fallback (s : WS) (message : Dyn) :
    ((certResponseError s message (CertError.withPayload "not implemented") =
       ({ s with client_ := none }, some message, false)) ∧
     (∀ payload, payload ≠ "not implemented" →
       certResponseError s message (CertError.withPayload payload) = (s, none, true)) ∧
     (certResponseError s message CertError.other = (s, none, true))) := by
  refine ⟨rfl, ?_, rfl⟩
  intro payload hp
  simp [certResponseError, hp]

/-- Witness for C6 at concrete inputs: the literal payload triggers the
legacy resend of the same message and drops the handle; the payload
`"boom"` leaves the state untouched and is only logged. -/
theorem certError_legacy_fallback_witness :
    ((certResponseError (WS.mk true false 0 (some (Channel.mk 4))) (Dyn.str "m")
        (CertError.withPayload "not implemented") =
       (WS.mk true false 0 none, some (Dyn.str "m"), false)) ∧
     (certResponseError (WS.mk true false 0 (some (Channel.mk 4))) (Dyn.str "m")
        (CertError.withPayload "boom") =
       (WS.mk true false 0 (some (Channel.mk 4)), none, true))) :=
  ⟨(certError_legacy_fallback (WS.mk true false 0 (some (Channel.mk 4))) (Dyn.str "m")).1,
   (certError_legacy_fallback (WS.mk true false 0 (some (Channel.mk 4))) (Dyn.str "m")).2.1
     "boom" (by decide)⟩

/-- Counterexample to C7 as stated: a message issued while no channel handle
is present (`client_ = none`) is nonetheless delivered when its queued
continuation runs after a successful secure connect has installed a handle —
the drop decision is made at continuation-run time, not at call time. -/
theorem sendMessage_delivered_after_reconnect :
    (WS.mk false false 0 none).client_ = none ∧
    sendMessageCont
      ((startSync (WS.mk false false 0 none)
          (Env.mk true true (ConnectResult.success (Channel.mk 5)))).1).client_
      (Dyn.str "hello") = some (Channel.mk 5, Dyn.str "hello") := by
  decide

/-- Claim C7 as amended: `sendMessage` never throws and touches no controller
state at call time; the queued continuation drops the message exactly when no
channel handle is installed at the moment it runs, and otherwise delivers the
message over the handle installed at that moment. -/
theorem sendMessage_drop_semantics :
    (∀ (s : WS) (m : Dyn), sendMessage s m = (s, m)) ∧
    (∀ m : Dyn, sendMessageCont none m = none) ∧
    (∀ (ch : Channel) (m : Dyn), sendMessageCont (some ch) m = some (ch, m)) :=
  ⟨fun _ _ => rfl, fun _ => rfl, fun _ _ => rfl⟩

end Sonar

namespace Sonar

/-- Claim C8: the connected event marks the channel open and notifies
`onConnected` only when trusted; the disconnected/closed event is a no-op on
an already-closed channel, and otherwise marks it closed, leaves the trust
flag cleared, notifies `onDisconnected` exactly when the channel had been
trusted, and schedules a reconnect; `onClosed` behaves as `onDisconnected`. -/
theorem connectionEvents_callback_discipline (s : WS) :
    (((ConnectionEvents.onConnected s).1.isOpen_ = true ∧
      (ConnectionEvents.onConnected s).2 =
        (if s.connectionIsTrusted_ then [CallbackEvent.onConnected] else [])) ∧
     (s.isOpen_ = false → ConnectionEvents.onDisconnected s = (s, [], false)) ∧
     (s.isOpen_ = true →
       ((ConnectionEvents.onDisconnected s).1.isOpen_ = false ∧
        (ConnectionEvents.onDisconnected s).1.connectionIsTrusted_ = false ∧
        (ConnectionEvents.onDisconnected s).2.1 =
          (if s.connectionIsTrusted_ then [CallbackEvent.onDisconnected] else []) ∧
        (ConnectionEvents.onDisconnected s).2.2 = true)) ∧
     (ConnectionEvents.onClosed s = ConnectionEvents.onDisconnected s)) := by
  refine ⟨⟨?_, ?_⟩, ?_, ?_, rfl⟩
  · cases ht : s.connectionIsTrusted_ <;> simp [ConnectionEvents.onConnected, ht]
  · cases ht : s.connectionIsTrusted_ <;> simp [ConnectionEvents.onConnected, ht]
  · intro ho
    simp [ConnectionEvents.onDisconnected, ho]
  · intro ho
    cases ht : s.connectionIsTrusted_ <;>
      simp [ConnectionEvents.onDisconnected, ho, ht]

/-- Witness for C8 at concrete states: a disconnect event on an
already-closed channel is a no-op, and on an open trusted channel it closes,
clears trust, notifies once and schedules a reconnect. -/
theorem connectionEvents_callback_discipline_witness :
    (ConnectionEvents.onDisconnected (WS.mk false false 3 none) =
       (WS.mk false false 3 none, [], false)) ∧
    ((ConnectionEvents.onDisconnected (WS.mk true true 0 (some (Channel.mk 1)))).1.isOpen_ = false ∧
     (ConnectionEvents.onDisconnected (WS.mk true true 0 (some (Channel.mk 1)))).1.connectionIsTrusted_ = false ∧
     (ConnectionEvents.onDisconnected (WS.mk true true 0 (some (Channel.mk 1)))).2.1 =
       (if (WS.mk true true 0 (some (Channel.mk 1))).connectionIsTrusted_ then
          [CallbackEvent.onDisconnected] else []) ∧
     (ConnectionEvents.onDisconnected (WS.mk true true 0 (some (Channel.mk 1)))).2.2 = true) :=
  ⟨(connectionEvents_callback_discipline (WS.mk false false 3 none)).2.1 rfl,
   (connectionEvents_callback_discipline (WS.mk true true 0 (some (Channel.mk 1)))).2.2.1 rfl⟩

/-- Claim C9: the queued send continuation consults only the presence of a
channel handle, never the trust flag; after a successful bootstrap connect —
an untrusted channel installed for certificate exchange — a queued message is
forwarded over that unauthenticated channel. -/
theorem send_path_ignores_trust (s : WS) (env : Env) (ch : Channel) (m : Dyn)
    (h : (startSync s env).2.1 = Path.bootstrap)
    (hc : env.connectResult = ConnectResult.success ch) :
    ((startSync s env).1.connectionIsTrusted_ = false ∧
     (startSync s env).1.client_ = some ch ∧
     sendMessageCont ((startSync s env).1).client_ m = some (ch, m)) := by
  have ht := startSync_bootstrap_trusted s env h
  have hcl : (startSync s env).1.client_ = some ch := by
    rcases env with ⟨own, files, cr⟩
    unfold startSync at h ⊢
    cases own <;> cases hso : s.isOpen <;>
      cases hn : isCertificateExchangeNeeded s files <;>
      cases cr <;> simp_all
  exact ⟨ht, hcl, by rw [hcl]; rfl⟩

/-- Witness for C9 at a concrete bootstrap run: the installed channel is
untrusted, yet the continuation delivers the payload over it. -/
theorem send_path_ignores_trust_witness :
    ((startSync (WS.mk false false 0 none)
        (Env.mk true false (ConnectResult.success (Channel.mk 3)))).1.connectionIsTrusted_ = false ∧
     (startSync (WS.mk false false 0 none)
        (Env.mk true false (ConnectResult.success (Channel.mk 3)))).1.client_ =
       some (Channel.mk 3) ∧
     sendMessageCont ((startSync (WS.mk false false 0 none)
        (Env.mk true false (ConnectResult.success (Channel.mk 3)))).1).client_
       (Dyn.str "app") = some (Channel.mk 3, Dyn.str "app")) :=
  send_path_ignores_trust _ _ _ _ (by decide) (by decide)

/-- Claim C10: the responder's fire-and-forget handler invokes
`onMessageReceived` with the JSON value parsed from the payload; when the
payload is not valid JSON the parse throws and the callback is not invoked. -/
theorem handleFireAndForget_parse (parseJson : String → Option Dyn)
    (payload : String) :
    ((∀ j, parseJson payload = some j →
       Responder.handleFireAndForget parseJson payload =
         Except.ok [CallbackEvent.onMessageReceived j]) ∧
     (parseJson payload = none →
       Responder.handleFireAndForget parseJson payload = Except.error payload)) := by
  constructor
  · intro j hj
    simp [Responder.handleFireAndForget, hj]
  · intro hn
    simp [Responder.handleFireAndForget, hn]

/-- Witness for C10: with the demo parse function, `{}` reaches the callback
as the parsed object, and a malformed payload produces an error with no
callback event. -/
theorem handleFireAndForget_parse_witness :
    (Responder.handleFireAndForget parseJsonDemo "\x7b\x7d" =
       Except.ok [CallbackEvent.onMessageReceived Dyn.objEmpty]) ∧
    (Responder.handleFireAndForget parseJsonDemo "notjson" =
       Except.error "notjson") :=
  ⟨(handleFireAndForget_parse parseJsonDemo "\x7b\x7d").1 Dyn.objEmpty (by decide),
   (handleFireAndForget_parse parseJsonDemo "notjson").2 (by decide)⟩

end Sonar
